import Mathlib

/-!
Shallow embedding of `src/scripts/local_transcribe.py` (function `main`).

The script reads an audio path and an optional model size from the command
line, loads a faster-whisper model on the best available device, transcribes,
applies two repetition heuristics to the segment stream, and prints exactly
one JSON object to standard output (success or error), exiting 0 on success
and 1 otherwise.

External effects (imports, CUDA probe, model construction, the transcribe
call, the lazy segment iterator, and the four `time.time()` readings) are
modelled by an `Env` record supplied to the embedded `pyMain`.  Python
floats (`time.time()` values, the repetition ratio) are modelled as exact
rationals; `int()` truncation toward zero is `pyInt`.  Diagnostic writes to
`stderr` are ignored by the model; the `stdout` field of the result holds
only the JSON records the script prints, as in the source.
-/

/-- Python `str.strip()` with no argument: drop leading and trailing
whitespace characters. -/
def pyStrip (s : String) : String :=
  String.mk (((s.data.dropWhile Char.isWhitespace).reverse.dropWhile
    Char.isWhitespace).reverse)

/-- Helper for `pySplit`: walk the characters, `cur` holding the current
word reversed; whitespace closes the current word (dropping it if empty). -/
def pySplitAux : List Char → List Char → List String
  | [], cur => if cur.isEmpty then [] else [String.mk cur.reverse]
  | c :: cs, cur =>
    if c.isWhitespace then
      (if cur.isEmpty then [] else [String.mk cur.reverse]) ++ pySplitAux cs []
    else
      pySplitAux cs (c :: cur)

/-- Python `str.split()` with no argument: split on whitespace runs,
discarding empty words. -/
def pySplit (s : String) : List String :=
  pySplitAux s.data []

/-- Python `" ".join(ws)`: the words joined by single spaces. -/
def pyJoinSpace (ws : List String) : String :=
  match ws with
  | [] => ""
  | w :: rest => rest.foldl (fun acc x => acc ++ " " ++ x) w

/-- A Python exception escaping a step of the `try` block: either an
`ImportError` (caught by the first handler) or any other `Exception`
(caught by the second handler). -/
inductive PyErr where
  | importError (msg : String)
  | exception (msg : String)
deriving DecidableEq

/-- The `info` object returned by `model.transcribe` (fields used by the
script: `language`, `language_probability`, `duration`). -/
structure TranscribeInfo where
  language : String
  language_probability : ℚ
  duration : ℚ
deriving DecidableEq

/-- The external world for one invocation: outcome of each fallible step,
the CUDA probe, the segment texts yielded by the lazy iterator (with an
optional exception raised by the iterator after its last yield), the
transcribe info, and the four wall-clock readings
(`start_time`, `model_load_time`, `transcription_start_time`, `end_time`). -/
structure Env where
  importFasterWhisper : Option PyErr
  importTorch : Option PyErr
  cudaAvailable : Bool
  modelLoad : Option PyErr
  transcribeCall : Option PyErr
  segments : List String
  segmentsErr : Option String
  info : TranscribeInfo
  time0 : ℚ
  time1 : ℚ
  time2 : ℚ
  time3 : ℚ

/-- Line 32: `device = "cuda" if cuda_available else "cpu"`. -/
def selectDevice (cuda_available : Bool) : String :=
  if cuda_available then "cuda" else "cpu"

/-- Line 33: `compute_type = "float16" if cuda_available else "int8"`. -/
def selectComputeType (cuda_available : Bool) : String :=
  if cuda_available then "float16" else "int8"

/-- Line 49: `beam_size = 5 if cuda_available else 1`. -/
def selectBeamSize (cuda_available : Bool) : Nat :=
  if cuda_available then 5 else 1

/-- Line 50: `vad_filter = True if cuda_available else False`. -/
def selectVadFilter (cuda_available : Bool) : Bool :=
  if cuda_available then true else false

/-- Line 51: `temperature = 0.0`. -/
def temperature : ℚ := 0

/-- Python `int(x)`: truncation toward zero. -/
def pyInt (q : ℚ) : Int :=
  if 0 ≤ q then ⌊q⌋ else ⌈q⌉

/-- `int((t2 - t1) * 1000)` as in the `timing` block (lines 135-137). -/
def elapsedMs (t1 t2 : ℚ) : Int :=
  pyInt ((t2 - t1) * 1000)

/-- The mutable state of the segment loop (lines 73-76):
`transcribed_text`, `segments_processed`, `last_segment_text`,
`repetition_count`. -/
structure LoopState where
  transcribed_text : String
  segments_processed : Nat
  last_segment_text : String
  repetition_count : Nat
deriving DecidableEq

/-- Initial loop state (lines 73-76). -/
def initLoopState : LoopState :=
  { transcribed_text := "", segments_processed := 0,
    last_segment_text := "", repetition_count := 0 }

/-- Outcome of one loop iteration: continue with the next segment, or
`break` out of the loop. -/
inductive StepOut where
  | cont (st : LoopState)
  | brk (st : LoopState)
deriving DecidableEq

/-- Lines 98-100: `if segment_text and len(segment_text) > 2:
transcribed_text += segment_text + " "`. -/
def appendIfKept (st : LoopState) (segment_text : String) : LoopState :=
  if segment_text ≠ "" ∧ segment_text.length > 2 then
    { st with transcribed_text := st.transcribed_text ++ segment_text ++ " " }
  else st

/-- One iteration of the `for segment in segments` loop (lines 81-100):
count the segment, trim its text, update the repetition counter
(`break` once it reaches 4), and append the text when kept. -/
def segmentStep (st : LoopState) (segment : String) : StepOut :=
  let st := { st with segments_processed := st.segments_processed + 1 }
  let segment_text := pyStrip segment
  if segment_text = st.last_segment_text then
    let st := { st with repetition_count := st.repetition_count + 1 }
    if st.repetition_count ≥ 4 then
      .brk st
    else
      .cont (appendIfKept st segment_text)
  else
    let st := { st with repetition_count := 0, last_segment_text := segment_text }
    .cont (appendIfKept st segment_text)

/-- The whole segment loop: fold `segmentStep` over the yielded segments;
the Bool records whether the loop exited via `break` (in which case the
iterator is never advanced again). -/
def consumeSegments : List String → LoopState → LoopState × Bool
  | [], st => (st, false)
  | segment :: rest, st =>
    match segmentStep st segment with
    | .brk st => (st, true)
    | .cont st => consumeSegments rest st

/-- Line 111: `repetition_ratio = len(words) / len(unique_words) if
unique_words else 0`, with real division modelled exactly on ℚ. -/
def repetitionRatio (wordCount uniqueCount : Nat) : ℚ :=
  if uniqueCount ≠ 0 then (wordCount : ℚ) / (uniqueCount : ℚ) else 0

/-- Lines 108-116: the global repetition-ratio guard applied to the
accumulated text after the loop. -/
def ratioGuard (transcribed_text : String) : String :=
  let words := pySplit transcribed_text
  if words.length > 10 then
    let unique_words := words.eraseDups
    let ratio := repetitionRatio words.length unique_words.length
    if ratio > 3 then
      pyJoinSpace (words.take (min 50 (words.length / 3)))
    else transcribed_text
  else transcribed_text

/-- The `text` the script reports for a given segment stream: run the loop
from the initial state, strip the accumulated text (line 102), then apply
the ratio guard. -/
def finalText (segments : List String) : String :=
  ratioGuard (pyStrip (consumeSegments segments initLoopState).1.transcribed_text)

/-- The success record printed on line 141 (the nested `timing` object is
flattened into the three `_ms` fields). -/
structure SuccessRecord where
  text : String
  language : String
  language_probability : ℚ
  duration : ℚ
  device : String
  compute_type : String
  model_size : String
  beam_size : Nat
  vad_filter : Bool
  cuda_available : Bool
  model_load_ms : Int
  transcription_ms : Int
  total_ms : Int
deriving DecidableEq

/-- One JSON object printed to standard output: the success record, or one
of the three error records the script can print, each identified by the
value of its "error" field. -/
inductive JsonOut where
  | success (result : SuccessRecord)
  | usageError (msg : String)
  | depMissing (details : String) (install_command : String)
  | transcriptionFailed (details : String) (audio_file : String)
deriving DecidableEq

/-- The value of the "error" field of an output record, `none` for the
success record. -/
def errorKindTag : JsonOut → Option String
  | .success _ => none
  | .usageError msg => some msg
  | .depMissing _ _ => some "faster-whisper not installed"
  | .transcriptionFailed _ _ => some "Transcription failed"

/-- Line 16's usage message. -/
def usageMessage : String :=
  "Usage: python local_transcribe.py <audio_file_path> [model_size]"

/-- The body of the `try` block (lines 22-141): each fallible step either
raises (shortcutting to the handlers) or proceeds; on success it builds the
result record. -/
def tryBody (audio_file_path model_size : String) (env : Env) :
    Except PyErr SuccessRecord :=
  match env.importFasterWhisper with
  | some e => .error e
  | none =>
    let start_time := env.time0
    match env.importTorch with
    | some e => .error e
    | none =>
      let cuda_available := env.cudaAvailable
      let device := selectDevice cuda_available
      let compute_type := selectComputeType cuda_available
      match env.modelLoad with
      | some e => .error e
      | none =>
        let model_load_time := env.time1
        let beam_size := selectBeamSize cuda_available
        let vad_filter := selectVadFilter cuda_available
        match env.transcribeCall with
        | some e => .error e
        | none =>
          let transcription_start_time := env.time2
          match consumeSegments env.segments initLoopState with
          | (st, broke) =>
            match env.segmentsErr, broke with
            | some m, false => .error (.exception m)
            | _, _ =>
              let transcribed_text := ratioGuard (pyStrip st.transcribed_text)
              let end_time := env.time3
              .ok {
                text := transcribed_text,
                language := env.info.language,
                language_probability := env.info.language_probability,
                duration := env.info.duration,
                device := device,
                compute_type := compute_type,
                model_size := model_size,
                beam_size := beam_size,
                vad_filter := vad_filter,
                cuda_available := cuda_available,
                model_load_ms := elapsedMs start_time model_load_time,
                transcription_ms := elapsedMs transcription_start_time end_time,
                total_ms := elapsedMs start_time end_time }

/-- What one invocation writes to standard output and its exit code. -/
structure RunResult where
  stdout : List JsonOut
  exitCode : Nat
deriving DecidableEq

/-- The `try`/`except` part of `main` (lines 22-157): run the body; an
`ImportError` prints the dependency-missing record, any other exception the
transcription-failed record, both with exit code 1; success prints the
result record and exits 0. -/
def runTry (audio_file_path model_size : String) (env : Env) : RunResult :=
  match tryBody audio_file_path model_size env with
  | .ok result => { stdout := [.success result], exitCode := 0 }
  | .error (.importError msg) =>
      { stdout := [.depMissing msg "pip install faster-whisper"], exitCode := 1 }
  | .error (.exception msg) =>
      { stdout := [.transcriptionFailed msg audio_file_path], exitCode := 1 }

/-- `main` (lines 14-157): `args` are the positional arguments after the
script path (`len(sys.argv) < 2 or > 3` is `args` empty or longer than 2);
with one argument the model size defaults to "small". -/
def pyMain (args : List String) (env : Env) : RunResult :=
  match args with
  | [audio_file_path] => runTry audio_file_path "small" env
  | [audio_file_path, model_size] => runTry audio_file_path model_size env
  | _ => { stdout := [.usageError usageMessage], exitCode := 1 }

/-! ### Shared helper objects and lemmas -/

/-- A benign environment: every external step succeeds, the segment stream
is empty, all clock readings are 0. -/
def env0 : Env :=
  { importFasterWhisper := none, importTorch := none, cudaAvailable := false,
    modelLoad := none, transcribeCall := none, segments := [],
    segmentsErr := none,
    info := { language := "en", language_probability := 1, duration := 0 },
    time0 := 0, time1 := 0, time2 := 0, time3 := 0 }

/-- An environment whose first step, the `faster_whisper` import, raises
`ImportError`. -/
def envImportFail : Env :=
  { env0 with importFasterWhisper := some (.importError "No module named faster_whisper") }

/-! ### C1: exact-repeat guard -/

/-- **C1.** Exact-repeat guard: a segment whose stripped text equals the
tracked previous text increments the repetition counter, and when the
counter reaches 4 the loop breaks with the accumulated text unchanged
(the breaking segment is not appended); a non-repeating segment resets the
counter to 0 and updates the tracked text.  For a stream of 5 consecutive
identical segments "foo" (whatever follows them), exactly 5 segments are
consumed (the 5th is the 4th repeat, where the loop breaks) and the final
text is "foo foo foo foo", containing "foo" exactly 4 times. -/
theorem exact_repeat_guard :
    (∀ st s, pyStrip s = st.last_segment_text →
      (st.repetition_count + 1 ≥ 4 →
        segmentStep st s = .brk { st with
          segments_processed := st.segments_processed + 1,
          repetition_count := st.repetition_count + 1 }) ∧
      (st.repetition_count + 1 < 4 →
        segmentStep st s = .cont (appendIfKept { st with
          segments_processed := st.segments_processed + 1,
          repetition_count := st.repetition_count + 1 } (pyStrip s)))) ∧
    (∀ st s, pyStrip s ≠ st.last_segment_text →
      segmentStep st s = .cont (appendIfKept { st with
        segments_processed := st.segments_processed + 1,
        repetition_count := 0, last_segment_text := pyStrip s } (pyStrip s))) ∧
    (∀ rest, consumeSegments (List.replicate 5 "foo" ++ rest) initLoopState =
        ({ transcribed_text := "foo foo foo foo ", segments_processed := 5,
           last_segment_text := "foo", repetition_count := 4 }, true) ∧
      finalText (List.replicate 5 "foo" ++ rest) = "foo foo foo foo") := by
  refine ⟨fun st s h => ⟨fun h4 => ?_, fun h4 => ?_⟩, fun st s h => ?_, fun rest => ⟨rfl, rfl⟩⟩
  · simp only [segmentStep]
    rw [if_pos h, if_pos h4]
  · simp only [segmentStep]
    rw [if_pos h, if_neg (by omega)]
  · simp only [segmentStep]
    rw [if_neg h]

/-- Witness for C1 at concrete inputs: with the counter at 3 and a
matching segment, the step breaks keeping the text; five "foo" segments
produce "foo foo foo foo". -/
theorem exact_repeat_guard_witness :
    segmentStep
      { transcribed_text := "x ", segments_processed := 3,
        last_segment_text := "foo", repetition_count := 3 } " foo " =
      StepOut.brk
        { transcribed_text := "x ", segments_processed := 4,
          last_segment_text := "foo", repetition_count := 4 } ∧
    finalText (List.replicate 5 "foo") = "foo foo foo foo" :=
  ⟨(exact_repeat_guard.1 _ " foo " (by decide)).1 (by decide),
   by simpa using (exact_repeat_guard.2.2 []).2⟩

/-! ### C9: empty-string sentinel for the repeat guard -/

/-- **C9.** The tracked previous text starts as "" and is updated only on a
non-repeating segment, so when the first four segments all strip to "",
each counts as a repeat of the sentinel: the loop breaks at the fourth
segment with 4 segments processed and empty accumulated text, and no later
segment (in particular no non-empty one) contributes to the output. -/
theorem empty_sentinel_stops (s1 s2 s3 s4 : String) (rest : List String)
    (h1 : pyStrip s1 = "") (h2 : pyStrip s2 = "") (h3 : pyStrip s3 = "")
    (h4 : pyStrip s4 = "") :
    consumeSegments (s1 :: s2 :: s3 :: s4 :: rest) initLoopState =
      ({ transcribed_text := "", segments_processed := 4,
         last_segment_text := "", repetition_count := 4 }, true) ∧
    finalText (s1 :: s2 :: s3 :: s4 :: rest) = "" := by
  have hrun : consumeSegments (s1 :: s2 :: s3 :: s4 :: rest) initLoopState =
      ({ transcribed_text := "", segments_processed := 4,
         last_segment_text := "", repetition_count := 4 }, true) := by
    simp [consumeSegments, segmentStep, appendIfKept, initLoopState, h1, h2, h3, h4]
  refine ⟨hrun, ?_⟩
  simp [finalText, hrun]
  rfl

/-- Witness for C9: four whitespace-only segments followed by a non-empty
one yield empty output with exactly 4 segments consumed. -/
theorem empty_sentinel_stops_witness :
    consumeSegments ["  ", " ", "   ", " ", "hello there"] initLoopState =
      ({ transcribed_text := "", segments_processed := 4,
         last_segment_text := "", repetition_count := 4 }, true) ∧
    finalText ["  ", " ", "   ", " ", "hello there"] = "" :=
  empty_sentinel_stops "  " " " "   " " " ["hello there"]
    (by decide) (by decide) (by decide) (by decide)

/-! ### Inversion helpers for the success path -/

/-- A successful `tryBody` run determines every field of the emitted
record: text from the two guards, metadata from the environment, the
device-dependent parameters from the CUDA probe, and the three timings
from the four clock readings. -/
theorem tryBody_ok_inv {audio model_size : String} {env : Env}
    {r : SuccessRecord} (h : tryBody audio model_size env = .ok r) :
    r = { text := finalText env.segments,
          language := env.info.language,
          language_probability := env.info.language_probability,
          duration := env.info.duration,
          device := selectDevice env.cudaAvailable,
          compute_type := selectComputeType env.cudaAvailable,
          model_size := model_size,
          beam_size := selectBeamSize env.cudaAvailable,
          vad_filter := selectVadFilter env.cudaAvailable,
          cuda_available := env.cudaAvailable,
          model_load_ms := elapsedMs env.time0 env.time1,
          transcription_ms := elapsedMs env.time2 env.time3,
          total_ms := elapsedMs env.time0 env.time3 } := by
  obtain ⟨ifw, itorch, cuda, ml, tc, segs, serr, info, t0, t1, t2, t3⟩ := env
  simp only [tryBody] at h
  rcases ifw with _ | e
  rotate_left
  · cases h
  rcases itorch with _ | e
  rotate_left
  · cases h
  rcases ml with _ | e
  rotate_left
  · cases h
  rcases tc with _ | e
  rotate_left
  · cases h
  rcases hcs : consumeSegments segs initLoopState with ⟨st, broke⟩
  rw [hcs] at h
  rcases serr with _ | m
  · simp only [Except.ok.injEq] at h
    simp [← h, finalText, hcs]
  · cases broke
    · cases h
    · simp only [Except.ok.injEq] at h
      simp [← h, finalText, hcs]

/-- A success record on standard output comes from a successful `tryBody`
run on the audio path and model size selected from the arguments. -/
theorem pyMain_stdout_success {args : List String} {env : Env}
    {r : SuccessRecord} (h : (pyMain args env).stdout = [JsonOut.success r]) :
    ∃ audio model_size, tryBody audio model_size env = .ok r ∧
      ((args = [audio] ∧ model_size = "small") ∨ args = [audio, model_size]) := by
  rcases args with _ | ⟨a, _ | ⟨b, rest⟩⟩
  · simp [pyMain] at h
  · refine ⟨a, "small", ?_, Or.inl ⟨rfl, rfl⟩⟩
    simp only [pyMain, runTry] at h
    split at h <;> simp_all
  · rcases rest with _ | ⟨c, rest⟩
    · refine ⟨a, b, ?_, Or.inr rfl⟩
      simp only [pyMain, runTry] at h
      split at h <;> simp_all
    · simp [pyMain] at h

/-- Helper: whatever `tryBody` does, `runTry` prints exactly one record and
exits 0 exactly when that record is the success record. -/
theorem runTry_shape (audio model_size : String) (env : Env) :
    (runTry audio model_size env).stdout.length = 1 ∧
    ((runTry audio model_size env).exitCode = 0 ↔
      ∃ r, (runTry audio model_size env).stdout = [JsonOut.success r]) := by
  rcases htb : tryBody audio model_size env with e | r
  · rcases e with m | m <;> simp [runTry, htb]
  · simp [runTry, htb]

/-- Helper: `runTry` never prints the usage record. -/
theorem runTry_no_usage (audio model_size : String) (env : Env) :
    ∀ out ∈ (runTry audio model_size env).stdout,
      ∀ msg, out ≠ JsonOut.usageError msg := by
  rcases htb : tryBody audio model_size env with e | r
  · rcases e with m | m <;> simp [runTry, htb]
  · simp [runTry, htb]

/-! ### C4: exactly one JSON object on stdout; exit code 0 iff success -/

/-- **C4.** For every invocation (any argument list, any environment:
usage error, import failure, any other exception, or success) exactly one
JSON record is written to standard output, and the exit code is 0 exactly
when that record is the success record.  In the model, standard output
holds only JSON records (diagnostics go to the unmodelled error stream)
and `pyMain` is a total function, so no exception escapes the boundary. -/
theorem single_json_and_exit (args : List String) (env : Env) :
    (pyMain args env).stdout.length = 1 ∧
    ((pyMain args env).exitCode = 0 ↔
      ∃ r, (pyMain args env).stdout = [JsonOut.success r]) := by
  rcases args with _ | ⟨a, _ | ⟨b, rest⟩⟩
  · simp [pyMain]
  · exact runTry_shape a "small" env
  · rcases rest with _ | ⟨c, rest⟩
    · exact runTry_shape a b env
    · simp [pyMain]

/-- Witness for C4 at a concrete invocation. -/
theorem single_json_and_exit_witness :
    (pyMain [] env0).stdout.length = 1 ∧
    ((pyMain [] env0).exitCode = 0 ↔
      ∃ r, (pyMain [] env0).stdout = [JsonOut.success r]) :=
  single_json_and_exit [] env0

/-! ### C5: device-dependent parameter selection -/

/-- **C5.** In every emitted success record: if the accelerator (CUDA) is
available the device is "cuda", precision "float16", beam width 5 and VAD
filtering on; if not, the device is "cpu", precision "int8", beam width 1
and VAD filtering off; the decoding temperature constant is 0 in both
cases, and the record reports the selected values (including the CUDA
flag itself). -/
theorem device_parameter_selection (args : List String) (env : Env)
    (result : SuccessRecord)
    (h : (pyMain args env).stdout = [JsonOut.success result]) :
    (env.cudaAvailable = true →
      result.device = "cuda" ∧ result.compute_type = "float16" ∧
      result.beam_size = 5 ∧ result.vad_filter = true) ∧
    (env.cudaAvailable = false →
      result.device = "cpu" ∧ result.compute_type = "int8" ∧
      result.beam_size = 1 ∧ result.vad_filter = false) ∧
    temperature = 0 ∧ result.cuda_available = env.cudaAvailable := by
  obtain ⟨audio, model_size, htb, -⟩ := pyMain_stdout_success h
  have hr := tryBody_ok_inv htb
  subst hr
  refine ⟨fun hc => ?_, fun hc => ?_, rfl, rfl⟩
  · simp [selectDevice, selectComputeType, selectBeamSize, selectVadFilter, hc]
  · simp [selectDevice, selectComputeType, selectBeamSize, selectVadFilter, hc]

/-- The record `pyMain ["a.wav"] env0` prints (every step succeeds, no
CUDA, empty segment stream, all clocks 0). -/
def successRecord0 : SuccessRecord :=
  { text := "", language := "en", language_probability := 1, duration := 0,
    device := "cpu", compute_type := "int8", model_size := "small",
    beam_size := 1, vad_filter := false, cuda_available := false,
    model_load_ms := elapsedMs 0 0, transcription_ms := elapsedMs 0 0,
    total_ms := elapsedMs 0 0 }

/-- Witness for C5: the CUDA-unavailable invocation selects cpu / int8 /
beam 1 / no VAD. -/
theorem device_parameter_selection_witness :
    successRecord0.device = "cpu" ∧ successRecord0.compute_type = "int8" ∧
    successRecord0.beam_size = 1 ∧ successRecord0.vad_filter = false :=
  (device_parameter_selection ["a.wav"] env0 successRecord0 rfl).2.1 rfl

/-! ### C6: argument-count validation -/

/-- **C6.** With zero or more than two positional arguments the program
prints the usage error record and exits 1, and this outcome is the same
whatever the environment (so no import, device probe, model load or
inference can influence it — no model work is observable); with one or two
arguments the usage record is never printed; with one argument the model
size defaults to "small". -/
theorem usage_argument_check :
    (∀ env args, args.length = 0 ∨ 2 < args.length →
      pyMain args env =
        { stdout := [JsonOut.usageError usageMessage], exitCode := 1 }) ∧
    (∀ env args out, (args.length = 1 ∨ args.length = 2) →
      out ∈ (pyMain args env).stdout → ∀ msg, out ≠ JsonOut.usageError msg) ∧
    (∀ env audio result,
      (pyMain [audio] env).stdout = [JsonOut.success result] →
      result.model_size = "small") := by
  refine ⟨fun env args h => ?_, fun env args out h hmem msg => ?_,
    fun env audio result h => ?_⟩
  · rcases args with _ | ⟨a, _ | ⟨b, _ | ⟨c, rest⟩⟩⟩
    · rfl
    · simp at h
    · simp at h
    · rfl
  · rcases args with _ | ⟨a, _ | ⟨b, _ | ⟨c, rest⟩⟩⟩
    · simp at h
    · exact runTry_no_usage a "small" env out hmem msg
    · exact runTry_no_usage a b env out hmem msg
    · simp at h
  · obtain ⟨audio2, model_size, htb, hargs⟩ := pyMain_stdout_success h
    rcases hargs with ⟨ha, hms⟩ | ha
    · have hr := tryBody_ok_inv htb
      subst hr
      exact hms
    · simp at ha
  
/-- Witness for C6: the zero-argument invocation yields the usage record
and exit code 1; the one-argument success reports model size "small". -/
theorem usage_argument_check_witness :
    pyMain [] env0 =
      { stdout := [JsonOut.usageError usageMessage], exitCode := 1 } ∧
    successRecord0.model_size = "small" :=
  ⟨usage_argument_check.1 env0 [] (Or.inl rfl),
   usage_argument_check.2.2 env0 "a.wav" successRecord0 rfl⟩

/-! ### C2: global repetition-ratio guard -/

/-- **C2.** The ratio guard replaces the text by the first
`min(50, word_count / 3)` words joined by single spaces exactly when the
word count exceeds 10 and word count divided by unique-word count exceeds
3; otherwise it leaves the text unchanged. -/
theorem global_ratio_guard (t : String) :
    (10 < (pySplit t).length ∧
        3 < repetitionRatio (pySplit t).length (pySplit t).eraseDups.length →
      ratioGuard t =
        pyJoinSpace ((pySplit t).take (min 50 ((pySplit t).length / 3)))) ∧
    (¬(10 < (pySplit t).length ∧
        3 < repetitionRatio (pySplit t).length (pySplit t).eraseDups.length) →
      ratioGuard t = t) := by
  constructor
  · rintro ⟨h10, h3⟩
    simp only [ratioGuard]
    rw [if_pos h10, if_pos h3]
  · intro h
    simp only [ratioGuard]
    split
    · split
      · exact absurd ⟨by assumption, by assumption⟩ h
      · rfl
    · rfl

/-- Witness for C2: twelve words, one of them unique — ratio 12 > 3, so
the text truncates to the first `min(50, 12 / 3) = 4` words. -/
theorem global_ratio_guard_witness :
    ratioGuard "a a a a a a a a a a a a" = "a a a a" := by
  have hsplit : pySplit "a a a a a a a a a a a a" = List.replicate 12 "a" := by
    decide
  have hdups : (List.replicate 12 "a").eraseDups = ["a"] := by decide
  have h := (global_ratio_guard "a a a a a a a a a a a a").1
    ⟨by rw [hsplit]; decide, by
      rw [hsplit, hdups]
      simp only [List.length_replicate, List.length_singleton]
      simp only [repetitionRatio]
      norm_num⟩
  rw [h, hsplit]
  decide

/-! ### C10: the ratio division is never division by zero -/

/-- Helper: `List.eraseDups.loop` never shortens its accumulator. -/
theorem eraseDups_loop_length {α : Type _} [BEq α] (as acc : List α) :
    acc.length ≤ (List.eraseDups.loop as acc).length := by
  induction as generalizing acc with
  | nil => simp [List.eraseDups.loop]
  | cons a as ih =>
    simp only [List.eraseDups.loop]
    split
    · exact ih acc
    · exact le_trans (by simp) (ih (a :: acc))

/-- Helper: the distinct-element list of a non-empty list is non-empty. -/
theorem eraseDups_length_pos {α : Type _} [BEq α] (l : List α) (h : l ≠ []) :
    0 < l.eraseDups.length := by
  rcases l with _ | ⟨a, as⟩
  · exact absurd rfl h
  · have hstep : (a :: as).eraseDups = List.eraseDups.loop as [a] := by
      simp [List.eraseDups, List.eraseDups.loop]
    rw [hstep]
    exact lt_of_lt_of_le (by simp) (eraseDups_loop_length as [a])

/-- **C10.** The guard on word count (`> 10`) forces the word list, hence
its unique-word list, to be non-empty, so the ratio's denominator is
positive; and the explicit `if unique_words else 0` guard makes the ratio
0 when the unique-word set is empty. -/
theorem ratio_division_safe :
    (∀ t, 10 < (pySplit t).length → 0 < (pySplit t).eraseDups.length) ∧
    (∀ wordCount, repetitionRatio wordCount 0 = 0) := by
  constructor
  · intro t h
    refine eraseDups_length_pos (pySplit t) ?_
    intro he
    rw [he] at h
    simp at h
  · intro wc
    simp [repetitionRatio]

/-- Witness for C10 at a concrete 11-word text. -/
theorem ratio_division_safe_witness :
    0 < (pySplit "a b c d e f g h i j k").eraseDups.length ∧
    repetitionRatio 12 0 = 0 :=
  ⟨ratio_division_safe.1 "a b c d e f g h i j k" (by decide),
   ratio_division_safe.2 12⟩

/-! ### C8: timing fields -/

/-- Helper: on non-negative input, Python `int()` is the floor. -/
theorem pyInt_eq_floor {q : ℚ} (h : 0 ≤ q) : pyInt q = ⌊q⌋ :=
  if_pos h

/-- Helper: `int()` of a non-negative quantity is non-negative. -/
theorem pyInt_nonneg {q : ℚ} (h : 0 ≤ q) : 0 ≤ pyInt q := by
  rw [pyInt_eq_floor h]
  exact Int.floor_nonneg.mpr h

/-- Helper: `int()` is monotone on non-negative inputs. -/
theorem pyInt_mono {a b : ℚ} (ha : 0 ≤ a) (hab : a ≤ b) :
    pyInt a ≤ pyInt b := by
  rw [pyInt_eq_floor ha, pyInt_eq_floor (ha.trans hab)]
  exact Int.floor_le_floor hab

/-- Helper: truncations of non-negative parts never exceed the truncation
of the sum. -/
theorem pyInt_add_le {a b : ℚ} (ha : 0 ≤ a) (hb : 0 ≤ b) :
    pyInt a + pyInt b ≤ pyInt (a + b) := by
  rw [pyInt_eq_floor ha, pyInt_eq_floor hb, pyInt_eq_floor (add_nonneg ha hb)]
  refine Int.le_floor.mpr ?_
  push_cast
  exact add_le_add (Int.floor_le a) (Int.floor_le b)

/-- **C8.** When the four clock readings are ordered
(start ≤ model-load ≤ transcription-start ≤ end), the three timing fields
of the emitted success record are non-negative integers, each of
`model_load_ms` and `transcription_ms` is at most `total_ms`, and their
sum is at most `total_ms`. -/
theorem timing_fields (args : List String) (env : Env)
    (result : SuccessRecord)
    (h : (pyMain args env).stdout = [JsonOut.success result])
    (h01 : env.time0 ≤ env.time1) (h12 : env.time1 ≤ env.time2)
    (h23 : env.time2 ≤ env.time3) :
    0 ≤ result.model_load_ms ∧ 0 ≤ result.transcription_ms ∧
    0 ≤ result.total_ms ∧
    result.model_load_ms ≤ result.total_ms ∧
    result.transcription_ms ≤ result.total_ms ∧
    result.model_load_ms + result.transcription_ms ≤ result.total_ms := by
  obtain ⟨audio, model_size, htb, -⟩ := pyMain_stdout_success h
  have hr := tryBody_ok_inv htb
  subst hr
  simp only [elapsedMs]
  have ha : (0:ℚ) ≤ (env.time1 - env.time0) * 1000 := by
    have := sub_nonneg.mpr h01
    positivity
  have hb : (0:ℚ) ≤ (env.time3 - env.time2) * 1000 := by
    have := sub_nonneg.mpr h23
    positivity
  have hac : (env.time1 - env.time0) * 1000 ≤ (env.time3 - env.time0) * 1000 := by
    have h13 : env.time1 ≤ env.time3 := h12.trans h23
    nlinarith
  have hbc : (env.time3 - env.time2) * 1000 ≤ (env.time3 - env.time0) * 1000 := by
    have h02 : env.time0 ≤ env.time2 := h01.trans h12
    nlinarith
  have habc : (env.time1 - env.time0) * 1000 + (env.time3 - env.time2) * 1000 ≤
      (env.time3 - env.time0) * 1000 := by nlinarith
  refine ⟨pyInt_nonneg ha, pyInt_nonneg hb, pyInt_nonneg (ha.trans hac),
    pyInt_mono ha hac, pyInt_mono hb hbc, ?_⟩
  exact le_trans (pyInt_add_le ha hb) (pyInt_mono (add_nonneg ha hb) habc)

/-- The environment for the C8 witness: all steps succeed and the four
clock readings are 0, 1, 2, 3 seconds. -/
def envTimes : Env :=
  { env0 with time1 := 1, time2 := 2, time3 := 3 }

/-- The record `pyMain ["a.wav"] envTimes` prints. -/
def successRecordTimes : SuccessRecord :=
  { successRecord0 with
      model_load_ms := elapsedMs 0 1,
      transcription_ms := elapsedMs 2 3,
      total_ms := elapsedMs 0 3 }

/-- Witness for C8 at the concrete clock readings 0 ≤ 1 ≤ 2 ≤ 3. -/
theorem timing_fields_witness :
    0 ≤ successRecordTimes.model_load_ms ∧
    0 ≤ successRecordTimes.transcription_ms ∧
    0 ≤ successRecordTimes.total_ms ∧
    successRecordTimes.model_load_ms ≤ successRecordTimes.total_ms ∧
    successRecordTimes.transcription_ms ≤ successRecordTimes.total_ms ∧
    successRecordTimes.model_load_ms + successRecordTimes.transcription_ms ≤
      successRecordTimes.total_ms :=
  timing_fields ["a.wav"] envTimes successRecordTimes rfl
    (by norm_num [envTimes, env0]) (by norm_num [envTimes, env0])
    (by norm_num [envTimes, env0])

/-! ### C7: discarded and kept segments -/

/-- Spec-side characterization of which stripped segment texts the loop
appends (in order): following the spec's words, a repeat of the tracked
previous text that brings the counter to 4 ends the list; otherwise the
segment's stripped text is kept exactly when it is non-empty and longer
than 2 characters. -/
def keptSegmentsSpec : List String → String → Nat → List String
  | [], _, _ => []
  | s :: rest, last, rc =>
    let t := pyStrip s
    if t = last then
      if rc + 1 ≥ 4 then []
      else (if t ≠ "" ∧ t.length > 2 then [t] else []) ++
        keptSegmentsSpec rest last (rc + 1)
    else
      (if t ≠ "" ∧ t.length > 2 then [t] else []) ++ keptSegmentsSpec rest t 0

/-- Spec-side join: each kept text followed by the separator space. -/
def joinKept : List String → String
  | [] => ""
  | t :: rest => t ++ " " ++ joinKept rest

/-- Helper: the loop's accumulated text is the starting text followed by
the kept stripped texts, each with its trailing separator space. -/
theorem consumeSegments_text (segs : List String) (st : LoopState) :
    ((consumeSegments segs st).1).transcribed_text =
      st.transcribed_text ++
        joinKept (keptSegmentsSpec segs st.last_segment_text st.repetition_count) := by
  induction segs generalizing st with
  | nil => simp [consumeSegments, keptSegmentsSpec, joinKept, String.append_empty]
  | cons s rest ih =>
    rw [consumeSegments]
    by_cases ht : pyStrip s = st.last_segment_text
    · by_cases h4 : st.repetition_count + 1 ≥ 4
      · have hstep : segmentStep st s = .brk { st with
            segments_processed := st.segments_processed + 1,
            repetition_count := st.repetition_count + 1 } := by
          simp only [segmentStep]
          rw [if_pos ht, if_pos h4]
        rw [hstep]
        simp [keptSegmentsSpec, ht, h4, joinKept, String.append_empty]
      · have hstep : segmentStep st s = .cont (appendIfKept { st with
            segments_processed := st.segments_processed + 1,
            repetition_count := st.repetition_count + 1 } (pyStrip s)) := by
          simp only [segmentStep]
          rw [if_pos ht, if_neg h4]
        rw [hstep]
        show ((consumeSegments rest _).1).transcribed_text = _
        rw [ih]
        by_cases hk : pyStrip s ≠ "" ∧ (pyStrip s).length > 2
        · simp only [appendIfKept, if_pos hk, keptSegmentsSpec]
          rw [if_pos ht, if_neg h4]
          simp [joinKept, String.append_assoc]
        · simp only [appendIfKept, if_neg hk, keptSegmentsSpec]
          rw [if_pos ht, if_neg h4]
          simp [joinKept]
    · have hstep : segmentStep st s = .cont (appendIfKept { st with
          segments_processed := st.segments_processed + 1,
          repetition_count := 0, last_segment_text := pyStrip s } (pyStrip s)) := by
        simp only [segmentStep]
        rw [if_neg ht]
      rw [hstep]
      show ((consumeSegments rest _).1).transcribed_text = _
      rw [ih]
      by_cases hk : pyStrip s ≠ "" ∧ (pyStrip s).length > 2
      · simp only [appendIfKept, if_pos hk, keptSegmentsSpec]
        rw [if_neg ht]
        simp [joinKept, String.append_assoc]
      · simp only [appendIfKept, if_neg hk, keptSegmentsSpec]
        rw [if_neg ht]
        simp [joinKept]

/-- Helper: every kept text is non-empty, longer than 2 characters, and
the stripped text of one of the stream's segments. -/
theorem keptSegmentsSpec_mem (segs : List String) (last : String) (rc : Nat) :
    ∀ t ∈ keptSegmentsSpec segs last rc,
      t ≠ "" ∧ 2 < t.length ∧ ∃ s ∈ segs, t = pyStrip s := by
  induction segs generalizing last rc with
  | nil => simp [keptSegmentsSpec]
  | cons s rest ih =>
    intro t htmem
    simp only [keptSegmentsSpec] at htmem
    by_cases ht : pyStrip s = last
    · rw [if_pos ht] at htmem
      by_cases h4 : rc + 1 ≥ 4
      · rw [if_pos h4] at htmem
        simp at htmem
      · rw [if_neg h4] at htmem
        rcases List.mem_append.mp htmem with h1 | h2
        · by_cases hk : pyStrip s ≠ "" ∧ (pyStrip s).length > 2
          · rw [if_pos hk] at h1
            rcases List.mem_singleton.mp h1 with rfl
            exact ⟨hk.1, hk.2, s, List.mem_cons_self s rest, rfl⟩
          · rw [if_neg hk] at h1
            simp at h1
        · obtain ⟨hne, hlen, s2, hs2, hts2⟩ := ih last (rc + 1) t h2
          exact ⟨hne, hlen, s2, List.mem_cons_of_mem s hs2, hts2⟩
    · rw [if_neg ht] at htmem
      rcases List.mem_append.mp htmem with h1 | h2
      · by_cases hk : pyStrip s ≠ "" ∧ (pyStrip s).length > 2
        · rw [if_pos hk] at h1
          rcases List.mem_singleton.mp h1 with rfl
          exact ⟨hk.1, hk.2, s, List.mem_cons_self s rest, rfl⟩
        · rw [if_neg hk] at h1
          simp at h1
      · obtain ⟨hne, hlen, s2, hs2, hts2⟩ := ih (pyStrip s) 0 t h2
        exact ⟨hne, hlen, s2, List.mem_cons_of_mem s hs2, hts2⟩

/-- **C7.** The loop's final text is the stripped concatenation of the
kept stripped segment texts, each followed by its separator space; a kept
text is always non-empty, longer than 2 characters, and the stripped text
of a stream segment — so segments stripping to at most 2 characters (in
particular whitespace-only ones) contribute nothing. -/
theorem discarded_and_kept_segments (segs : List String) :
    pyStrip ((consumeSegments segs initLoopState).1).transcribed_text =
      pyStrip (joinKept (keptSegmentsSpec segs "" 0)) ∧
    (∀ t ∈ keptSegmentsSpec segs "" 0,
      t ≠ "" ∧ 2 < t.length ∧ ∃ s ∈ segs, t = pyStrip s) := by
  constructor
  · rw [consumeSegments_text segs initLoopState]
    rw [show initLoopState.transcribed_text = "" from rfl,
      show initLoopState.last_segment_text = "" from rfl,
      show initLoopState.repetition_count = 0 from rfl,
      String.empty_append]
  · exact keptSegmentsSpec_mem segs "" 0

/-- Witness for C7: "ab" and "xy" strip to 2 characters and are dropped,
"abcd" and "hello" are kept with their separator spaces. -/
theorem discarded_and_kept_segments_witness :
    pyStrip ((consumeSegments ["abcd", " hi ", "xy", "hello"]
        initLoopState).1).transcribed_text =
      pyStrip (joinKept (keptSegmentsSpec ["abcd", " hi ", "xy", "hello"] "" 0)) ∧
    ("abcd" ≠ "" ∧ 2 < "abcd".length ∧
      ∃ s ∈ ["abcd", " hi ", "xy", "hello"], "abcd" = pyStrip s) :=
  ⟨(discarded_and_kept_segments ["abcd", " hi ", "xy", "hello"]).1,
   (discarded_and_kept_segments ["abcd", " hi ", "xy", "hello"]).2 "abcd"
     (by decide)⟩

/-! ### C3: error kind tags (corrected) -/

/-- Counterexample to C3 as stated: the zero-argument invocation fails
(exit code 1) and its error record's "error" field is the usage message,
which is neither the dependency-missing tag nor the transcription-failed
tag — a third kind of error output. -/
theorem error_kind_counterexample :
    (pyMain [] env0).exitCode = 1 ∧
    errorKindTag ((pyMain [] env0).stdout.headD (JsonOut.usageError "")) =
      some usageMessage ∧
    usageMessage ≠ "faster-whisper not installed" ∧
    usageMessage ≠ "Transcription failed" :=
  ⟨rfl, rfl, by decide, by decide⟩

/-- Helper: when `runTry` fails, its single output record carries one of
the two exception tags. -/
theorem runTry_error_tags (audio model_size : String) (env : Env)
    (hfail : (runTry audio model_size env).exitCode ≠ 0) :
    ∀ out ∈ (runTry audio model_size env).stdout,
      errorKindTag out = some "faster-whisper not installed" ∨
      errorKindTag out = some "Transcription failed" := by
  rcases htb : tryBody audio model_size env with e | r
  · rcases e with m | m <;> simp [runTry, htb, errorKindTag]
  · simp [runTry, htb] at hfail

/-- **C3 (amended).** For every invocation that passes the argument-count
check (1 or 2 positional arguments) and fails, the error record's kind tag
is one of exactly two: the dependency-missing tag (ImportError) or the
transcription-failed tag (any other exception).  Invocations failing the
argument-count check emit a third, usage-error record instead
(see the counterexample). -/
theorem error_kind_two_tags (args : List String) (env : Env)
    (hargs : args.length = 1 ∨ args.length = 2)
    (hfail : (pyMain args env).exitCode ≠ 0) :
    ∀ out ∈ (pyMain args env).stdout,
      errorKindTag out = some "faster-whisper not installed" ∨
      errorKindTag out = some "Transcription failed" := by
  rcases args with _ | ⟨a, _ | ⟨b, _ | ⟨c, rest⟩⟩⟩
  · simp at hargs
  · exact runTry_error_tags a "small" env hfail
  · exact runTry_error_tags a b env hfail
  · simp at hargs

/-- Witness for the amended C3: with the dependency import failing, the
single output record carries the dependency-missing tag. -/
theorem error_kind_two_tags_witness :
    errorKindTag (JsonOut.depMissing "No module named faster_whisper"
        "pip install faster-whisper") = some "faster-whisper not installed" ∨
    errorKindTag (JsonOut.depMissing "No module named faster_whisper"
        "pip install faster-whisper") = some "Transcription failed" :=
  error_kind_two_tags ["a.wav"] envImportFail (Or.inl rfl) (by decide)
    (JsonOut.depMissing "No module named faster_whisper"
      "pip install faster-whisper") (by decide)
